import Mathlib

/-!
Shallow embedding of the Debate-App ML backend scoring core:
`backend_ml/ml_judge.py` (DebateJudge), `backend_ml/advanced_ai.py`
(AdvancedDebateAnalyzer) and the `/finalize` endpoint of `backend_ml/main.py`.

Python floats are modelled as rationals (ℚ); the deterministic arithmetic of
the pipeline is exact on the inputs considered here.  `round(x, 1)` is
modelled as round-half-to-even on exact rationals (Python's rounding mode);
every value rounded in the concrete theorems below is not a tie, so any
reasonable rounding convention agrees there.  The external model capabilities
(sentiment classifier, sentence embedder + cosine similarity, emotion
classifier) are parameters: fallible ones are functions into `Except String`.
-/

/-- Python whitespace for `str.strip()` / `str.split()` with no argument. -/
def pyIsSpace (c : Char) : Bool :=
  c = ' ' || c = '\t' || c = '\n' || c = '\r' || c = '\x0b' || c = '\x0c'

/-- `str.strip()` on the character list of a string. -/
def pyStrip (s : List Char) : List Char :=
  ((s.dropWhile pyIsSpace).reverse.dropWhile pyIsSpace).reverse

/-- Helper for `pySplitWs` carrying the word being accumulated (reversed). -/
def splitWsAux : List Char → List Char → List (List Char)
  | [], acc => if acc = [] then [] else [acc.reverse]
  | c :: rest, acc =>
    if pyIsSpace c then
      if acc = [] then splitWsAux rest [] else acc.reverse :: splitWsAux rest []
    else splitWsAux rest (c :: acc)

/-- Python `str.split()` with no argument: split on whitespace runs, dropping
empty pieces. -/
def pySplitWs (s : List Char) : List (List Char) := splitWsAux s []

/-- Helper for `pySplitOnDot` carrying the current piece (reversed). -/
def splitDotAux : List Char → List Char → List (List Char)
  | [], acc => [acc.reverse]
  | c :: rest, acc =>
    if c = '.' then acc.reverse :: splitDotAux rest [] else splitDotAux rest (c :: acc)

/-- Python `str.split(".")`: split on every dot, keeping empty pieces. -/
def pySplitOnDot (s : List Char) : List (List Char) := splitDotAux s []

/-- Helper for `pyCount`: scans the text left to right; `skip > 0` means the
scanner is still inside the previously matched occurrence. -/
def pyCountAux (pat : List Char) : List Char → ℕ → ℕ
  | [], _ => 0
  | _ :: rest, skip + 1 => pyCountAux pat rest skip
  | c :: rest, 0 =>
    if pat ≠ [] ∧ pat.isPrefixOf (c :: rest) then
      1 + pyCountAux pat rest (pat.length - 1)
    else
      pyCountAux pat rest 0

/-- Python `str.count(pat)`: number of non-overlapping occurrences of `pat`,
scanning left to right.  (Only ever used with non-empty patterns here.) -/
def pyCount (pat s : List Char) : ℕ := pyCountAux pat s 0

/-- Python `str.lower()` (ASCII inputs). -/
def pyLower (s : List Char) : List Char := s.map Char.toLower

/-- Python `str.upper()` (ASCII inputs). -/
def pyUpper (s : String) : String := ⟨s.data.map Char.toUpper⟩

/-- Python `" ".join(l)`. -/
def pyJoin : List String → String
  | [] => ""
  | [s] => s
  | s :: rest => s ++ " " ++ pyJoin rest

/-- Helper for `uniqFirst`: keeps the elements not seen before. -/
def uniqFirstAux (seen : List String) : List String → List String
  | [] => []
  | a :: l => if a ∈ seen then uniqFirstAux seen l else a :: uniqFirstAux (a :: seen) l

/-- Distinct elements of a list in first-seen order (`set(...)` size /
`collections.Counter` key order). -/
def uniqFirst (l : List String) : List String := uniqFirstAux [] l

/-- `numpy.mean` of a list of numbers (callers guard against the empty list). -/
def listMean (l : List ℚ) : ℚ := l.sum / (l.length : ℚ)

/-- Python `round(q)`: round half to even on an exact rational. -/
def pyRoundInt (q : ℚ) : ℤ :=
  if q - (⌊q⌋ : ℚ) < 1/2 then ⌊q⌋
  else if (1/2 : ℚ) < q - (⌊q⌋ : ℚ) then ⌊q⌋ + 1
  else if ⌊q⌋ % 2 = 0 then ⌊q⌋ else ⌊q⌋ + 1

/-- Python `round(q, 1)`. -/
def round1 (q : ℚ) : ℚ := (pyRoundInt (10 * q) : ℚ) / 10

/-- One reported sub-score: `{"score": ..., "rating": ...}`. -/
structure SubScore where
  score : ℚ
  rating : String
deriving DecidableEq

/-- Result dict of `DebateJudge.score_argument`. -/
structure ScoreSet where
  sentiment : SubScore
  clarity : SubScore
  vocab_richness : SubScore
  avg_word_len : SubScore
  length : ℕ
deriving DecidableEq

/-- Output `{label, score}` of the external sentiment classifier. -/
structure SentOut where
  label : String
  score : ℚ
deriving DecidableEq

/-- The external sentiment-classification capability: may raise. -/
def SentOracle : Type := String → Except String SentOut

/-- The external embed-both-and-cosine capability used by
`compare_arguments` (`embedder.encode` twice + `util.cos_sim`): may raise. -/
def SimOracle : Type := String → String → Except String ℚ

/-- `DebateJudge._rating` (ml_judge.py lines 39-45). -/
def _rating (value : ℚ) : String :=
  if 85 ≤ value then "Excellent"
  else if 70 ≤ value then "Good"
  else if 50 ≤ value then "Fair"
  else "Poor"

/-- The fixed filler lexicon (ml_judge.py line 71). -/
def filler : List String := ["um", "uh", "like", "you know", "basically", "so"]

/-- The zero-score dict returned for empty/whitespace text
(ml_judge.py lines 53-60). -/
def zeroScores : ScoreSet :=
  { sentiment := ⟨0, "Poor"⟩
    clarity := ⟨0, "Poor"⟩
    vocab_richness := ⟨0, "Poor"⟩
    avg_word_len := ⟨0, "Poor"⟩
    length := 0 }

/-- The purely lexical/structural statistics of one argument text, exactly the
intermediates of `DebateJudge.score_argument` (ml_judge.py lines 70-88):
`filler_count`, `length = len(words)`, `len(sentences)`,
`len(set(lowercased words))` and the total character count of the words
(`np.mean([len(w) for w in words])` is this sum divided by `length`). -/
structure ArgStats where
  filler_count : ℕ
  word_count : ℕ
  sentence_count : ℕ
  distinct_count : ℕ
  word_chars : ℕ
deriving DecidableEq

/-- Computes the `ArgStats` of a text the way ml_judge.py lines 70-88 do. -/
def argStats (text : String) : ArgStats :=
  let lower := pyLower text.data
  let filler_count := (filler.map (fun f => pyCount f.data lower)).sum
  let words := pySplitWs text.data
  let sentences :=
    (splitDotAux (text.data.map (fun c => if c = '?' ∨ c = '!' then '.' else c)) []).filter
      (fun s => pyStrip s ≠ [])
  { filler_count := filler_count
    word_count := words.length
    sentence_count := sentences.length
    distinct_count := (uniqFirst ((words.map pyLower).map (fun w => (⟨w⟩ : String)))).length
    word_chars := (words.map (fun w => w.length)).sum }

/-- `DebateJudge.score_argument` (ml_judge.py lines 47-97), with the external
sentiment classifier as a parameter.  The lazy `init_models` call only loads
models; it invokes no capability on the text and is not modelled. -/
def score_argument (sent : SentOracle) (text : String) : ScoreSet :=
  if pyStrip text.data = [] then zeroScores
  else
    let sentiment_score : ℚ :=
      match sent ⟨text.data.take 512⟩ with
      | .ok r => if pyUpper r.label = "POSITIVE" then r.score else -r.score
      | .error _ => 0
    let sentiment_pct := round1 ((sentiment_score + 1) * 50)
    let st := argStats text
    let length := st.word_count
    let avg_wps : ℚ := (length : ℚ) / ((max 1 st.sentence_count : ℕ) : ℚ)
    let clarity_raw : ℚ := 1 - min 1 ((st.filler_count : ℚ) / ((max 1 length : ℕ) : ℚ))
    let clarity_raw := if 30 < avg_wps then clarity_raw * (6/10) else clarity_raw
    let clarity_pct := round1 (clarity_raw * 100)
    let vocab_richness_raw : ℚ := (st.distinct_count : ℚ) / ((max 1 length : ℕ) : ℚ)
    let vocab_pct := round1 (vocab_richness_raw * 100)
    let avg_word_len : ℚ := if length ≠ 0 then (st.word_chars : ℚ) / (length : ℚ) else 0
    let avg_word_len_score := min 100 (round1 (avg_word_len * 10))
    { sentiment := ⟨sentiment_pct, _rating sentiment_pct⟩
      clarity := ⟨clarity_pct, _rating clarity_pct⟩
      vocab_richness := ⟨vocab_pct, _rating vocab_pct⟩
      avg_word_len := ⟨avg_word_len_score, _rating avg_word_len_score⟩
      length := length }

example : (score_argument (fun _ => .error "e") "").sentiment.score = 0 := by decide

/-- `DebateJudge.compare_arguments` (ml_judge.py lines 99-110), with the
external embed-and-cosine capability as a parameter.  The source has no
exception handler here: an embedder failure propagates to the caller. -/
def compare_arguments (sim : SimOracle) (args_a args_b : List String) : Except String ℚ :=
  let text_a := pyJoin args_a
  let text_b := pyJoin args_b
  if pyStrip text_a.data = [] ∨ pyStrip text_b.data = [] then .ok 0
  else
    match sim text_a text_b with
    | .ok s => .ok (round1 (s * 100))
    | .error e => .error e

/-- The four per-side averaged metrics of `evaluate`'s `avg_scores`. -/
structure Avgs where
  sentiment : ℚ
  clarity : ℚ
  vocab_richness : ℚ
  avg_word_len : ℚ
deriving DecidableEq

/-- One metric's average over a side: `np.mean([...]) if scores else 0`
(ml_judge.py line 122). -/
def avgOf (scores : List ScoreSet) (proj : ScoreSet → SubScore) : ℚ :=
  if scores ≠ [] then listMean (scores.map (fun s => (proj s).score)) else 0

/-- `avg_scores` of `DebateJudge.evaluate` (ml_judge.py lines 121-122). -/
def avg_scores (scores : List ScoreSet) : Avgs :=
  { sentiment := avgOf scores (fun s => s.sentiment)
    clarity := avgOf scores (fun s => s.clarity)
    vocab_richness := avgOf scores (fun s => s.vocab_richness)
    avg_word_len := avgOf scores (fun s => s.avg_word_len) }

/-- `total_score` of `DebateJudge.evaluate` (ml_judge.py lines 129-134). -/
def total_score (avg : Avgs) (coherence : ℚ) : ℚ :=
  (3/10) * avg.clarity + (3/10) * avg.sentiment + (2/10) * avg.vocab_richness +
    (1/10) * avg.avg_word_len + (1/10) * coherence

/-- The four averaged SubScores reported for one side. -/
structure SideScores where
  sentiment : SubScore
  clarity : SubScore
  vocab_richness : SubScore
  avg_word_len : SubScore
deriving DecidableEq

/-- The reported SubScore of one averaged metric (ml_judge.py lines 142-143):
the score is the rounded average, the rating is taken on the unrounded one. -/
def avgSub (q : ℚ) : SubScore := ⟨round1 q, _rating q⟩

/-- The result dict of `DebateJudge.evaluate` (ml_judge.py lines 140-147). -/
structure EvalResult where
  scores_A : SideScores
  scores_B : SideScores
  coherence : SubScore
  totals_A : ℚ
  totals_B : ℚ
  winner : String
deriving DecidableEq

/-- `DebateJudge.evaluate` (ml_judge.py lines 112-148).  An embedder failure
inside `compare_arguments` propagates (there is no handler in `evaluate`). -/
def evaluate (sent : SentOracle) (sim : SimOracle) (args_a args_b : List String) :
    Except String EvalResult :=
  let scores_a := args_a.map (score_argument sent)
  let scores_b := args_b.map (score_argument sent)
  let avg_a := avg_scores scores_a
  let avg_b := avg_scores scores_b
  match compare_arguments sim args_a args_b with
  | .error e => .error e
  | .ok coherence =>
    let total_a := round1 (total_score avg_a coherence)
    let total_b := round1 (total_score avg_b coherence)
    .ok
      { scores_A :=
          { sentiment := avgSub avg_a.sentiment
            clarity := avgSub avg_a.clarity
            vocab_richness := avgSub avg_a.vocab_richness
            avg_word_len := avgSub avg_a.avg_word_len }
        scores_B :=
          { sentiment := avgSub avg_b.sentiment
            clarity := avgSub avg_b.clarity
            vocab_richness := avgSub avg_b.vocab_richness
            avg_word_len := avgSub avg_b.avg_word_len }
        coherence := ⟨coherence, _rating coherence⟩
        totals_A := total_a
        totals_B := total_b
        winner := if total_a ≥ total_b then "A" else "B" }

/-- The two side totals of `evaluate` before the final `round(..., 1)`
(ml_judge.py line 136-137 before rounding), for stating how rounding
interacts with the winner decision. -/
def totals_unrounded (sent : SentOracle) (sim : SimOracle) (args_a args_b : List String) :
    Except String (ℚ × ℚ) :=
  (compare_arguments sim args_a args_b).map fun coherence =>
    (total_score (avg_scores (args_a.map (score_argument sent))) coherence,
     total_score (avg_scores (args_b.map (score_argument sent))) coherence)

/-- Output dict of `AdvancedDebateAnalyzer.analyze_argument_emotion`
(advanced_ai.py lines 42-58). -/
structure EmotionOut where
  emotion : String
  confidence : ℚ
  emotions : List (String × ℚ)
deriving DecidableEq

/-- The external emotion classifier: a list of `{label, score}` pairs, or a
raised exception; `none` when `init_models` never loaded it. -/
def EmotionOracle : Type := Option (String → Except String (List (String × ℚ)))

/-- The external sentence model used by `calculate_argument_similarity`
(encode two texts and take the normalized dot product); `none` when not
loaded. -/
def PairSimOracle : Type := Option (String → String → Except String ℚ)

/-- Stable descending insertion of `x` into a list already sorted by `key`
descending: `x` goes after every element with a key `≥ key x`. -/
def insertDesc (key : String × ℕ → ℕ) (x : String × ℕ) :
    List (String × ℕ) → List (String × ℕ)
  | [] => [x]
  | y :: ys => if key y < key x then x :: y :: ys else y :: insertDesc key x ys

/-- Stable descending insertion sort by `key` (the order `Counter.most_common`
produces: by count descending, insertion order on ties). -/
def sortByDesc (key : String × ℕ → ℕ) : List (String × ℕ) → List (String × ℕ)
  | [] => []
  | x :: xs => insertDesc key x (sortByDesc key xs)

/-- Stable descending insertion for `(label, score)` pairs by score. -/
def insertDescQ (x : String × ℚ) : List (String × ℚ) → List (String × ℚ)
  | [] => [x]
  | y :: ys => if y.2 < x.2 then x :: y :: ys else y :: insertDescQ x ys

/-- `sorted(result, key=lambda x: x["score"], reverse=True)` (stable). -/
def sortScoresDesc : List (String × ℚ) → List (String × ℚ)
  | [] => []
  | x :: xs => insertDescQ x (sortScoresDesc xs)

/-- `AdvancedDebateAnalyzer.analyze_argument_emotion` (advanced_ai.py lines
42-58): neutral/0.5 default when the classifier is missing, raises, or
returns an empty list (the `emotions[0]` IndexError is caught by the same
`except`). -/
def analyze_argument_emotion (clf : EmotionOracle) (text : String) : EmotionOut :=
  match clf with
  | none => ⟨"neutral", 1/2, []⟩
  | some c =>
    match c text with
    | .error _ => ⟨"neutral", 1/2, []⟩
    | .ok result =>
      match sortScoresDesc result with
      | [] => ⟨"neutral", 1/2, []⟩
      | e0 :: _ => ⟨e0.1, e0.2, (sortScoresDesc result).take 3⟩

/-- `AdvancedDebateAnalyzer.calculate_argument_similarity` (advanced_ai.py
lines 147-160): `0.0` when the model is missing or the call raises. -/
def calculate_argument_similarity (sm : PairSimOracle) (t1 t2 : String) : ℚ :=
  match sm with
  | none => 0
  | some f =>
    match f t1 t2 with
    | .ok v => v
    | .error _ => 0

/-- A Python dict with string keys and string values (the request's argument
objects in main.py; `arg['content']` raises `KeyError` when absent). -/
abbrev PyDict : Type := List (String × String)

/-- Python `d[k]`: the value at the first matching key, or a `KeyError`. -/
def dictGet (d : PyDict) (k : String) : Except String String :=
  match d.find? (fun p => p.1 = k) with
  | some p => .ok p.2
  | none => .error ("KeyError: " ++ k)

/-- The dict returned by `analyze_debate_dynamics` for a non-empty argument
list (advanced_ai.py lines 191-198). -/
structure Dynamics where
  total_arguments : ℕ
  emotional_diversity : ℚ
  dominant_emotions : List (String × ℕ)
  average_similarity : ℚ
  debate_coherence : ℚ
  emotional_progression : List String
deriving DecidableEq

/-- The key `"content"` read from each argument dict (advanced_ai.py
lines 173, 179-180). -/
def contentKey : String := "content"

/-- The payload `analyze_debate_dynamics` builds from the argument contents
(advanced_ai.py lines 167-198): emotions per argument, adjacent-pair
similarities, `Counter` statistics, `average_similarity` and
`debate_coherence = 1 - average_similarity`. -/
def dynamicsPayload (clf : EmotionOracle) (sm : PairSimOracle) (contents : List String) :
    Dynamics :=
  let emotions := contents.map (fun c => (analyze_argument_emotion clf c).emotion)
  let similarities :=
    (contents.zip contents.tail).map (fun p => calculate_argument_similarity sm p.1 p.2)
  let emotion_counts := (uniqFirst emotions).map (fun k => (k, emotions.count k))
  let emotional_diversity : ℚ :=
    if emotions ≠ [] then ((uniqFirst emotions).length : ℚ) / (emotions.length : ℚ) else 0
  let avg_similarity : ℚ := if similarities ≠ [] then listMean similarities else 0
  { total_arguments := contents.length
    emotional_diversity := emotional_diversity
    dominant_emotions := (sortByDesc (fun p => p.2) emotion_counts).take 3
    average_similarity := avg_similarity
    debate_coherence := 1 - avg_similarity
    emotional_progression := emotions }

/-- `AdvancedDebateAnalyzer.analyze_debate_dynamics` (advanced_ai.py lines
162-198): `{}` (modelled as `none`) for an empty argument list; otherwise
each `arg['content']` access may raise `KeyError`, which propagates. -/
def analyze_debate_dynamics (clf : EmotionOracle) (sm : PairSimOracle) (args : List PyDict) :
    Except String (Option Dynamics) :=
  if args = [] then .ok none
  else
    (args.mapM (fun a => dictGet a contentKey)).map fun contents =>
      some (dynamicsPayload clf sm contents)

/-- The response of `POST /finalize` (main.py lines 71-85): either the judge
result with an optional `debate_dynamics` entry, or `{"error": message}`. -/
inductive FinalizeResponse where
  | ok (result : EvalResult) (debate_dynamics : Option Dynamics)
  | error (msg : String)
deriving DecidableEq

/-- Python attribute lookup of `finalize_debate` on the `DebateJudge`
instance: the class body of ml_judge.py lines 7-148 defines `__init__`,
`init_models`, `_rating`, `score_argument`, `compare_arguments` and
`evaluate` only, so there is no such attribute and main.py line 75 raises
`AttributeError`. -/
def judge_finalize_debate : Option (List PyDict → Except String EvalResult) := none

/-- The error message `str(e)` of the `AttributeError` raised at
main.py line 75. -/
def finalizeAttrError : String :=
  "AttributeError: DebateJudge object has no attribute finalize_debate"

/-- `finalize_debate` of main.py lines 71-85: call `judge.finalize_debate`,
then, when the sentence model is loaded, merge the dynamics analyzer's result
under `debate_dynamics`; any exception is caught and returned as
`{"error": str(e)}`. -/
def finalize_debate (model_loaded : Bool) (clf : EmotionOracle) (sm : PairSimOracle)
    (args : List PyDict) : FinalizeResponse :=
  match judge_finalize_debate with
  | none => .error finalizeAttrError
  | some f =>
    match f args with
    | .error e => .error e
    | .ok result =>
      if model_loaded then
        match analyze_debate_dynamics clf sm args with
        | .error e => .error e
        | .ok dyn => .ok result dyn
      else .ok result none

/-! Concrete oracles and texts used by the witness and counterexample
theorems below. -/

/-- A sentiment classifier that labels everything positive with score 0. -/
def sentZero : SentOracle := fun _ => .ok ⟨"POSITIVE", 0⟩

/-- The message of a raising sentiment classifier. -/
def sentFailMsg : String := "classifier raised"

/-- A sentiment classifier that raises on every input. -/
def sentFail : SentOracle := fun _ => .error sentFailMsg

/-- An embedder whose cosine similarity is always 0. -/
def simZero : SimOracle := fun _ _ => .ok 0

/-- An embedder whose cosine similarity is always -1/2. -/
def simNeg : SimOracle := fun _ _ => .ok (-(1/2))

/-- The message of a raising embedder. -/
def simBoomMsg : String := "embedder raised"

/-- An embedder that raises on every call. -/
def simBoom : SimOracle := fun _ _ => .error simBoomMsg

def textA4 : String := "aaaa"

def textB4 : String := "bbbb"

def textC4 : String := "cccc"

def textX : String := "x"

def textY : String := "y"

def textHi : String := "hi"

def textWs : String := "  "

/-- The filler-heavy example text of the spec. -/
def textUm : String := "um so basically this is it"

/-- A single sentence of 31 one-character words. -/
def text31 : String := "a a a a a a a a a a a a a a a a a a a a a a a a a a a a a a a"

/-- Classifier for the rounding counterexample: score 0 on side A's text,
score 1/500 (= 0.002) elsewhere. -/
def sentC1 : SentOracle :=
  fun t => if t = textA4 then .ok ⟨"POSITIVE", 0⟩ else .ok ⟨"POSITIVE", 1/500⟩

/-- Classifier for the rating counterexample: score 87/125 (= 0.696) on
`textC4`, score 7/10 elsewhere. -/
def sentC10 : SentOracle :=
  fun t => if t = textC4 then .ok ⟨"POSITIVE", 87/125⟩ else .ok ⟨"POSITIVE", 7/10⟩

/-! Helper evaluation lemmas shared by several proofs. -/

theorem scoreC1_A4 : score_argument sentC1 textA4 =
    ⟨⟨50, "Fair"⟩, ⟨100, "Excellent"⟩, ⟨100, "Excellent"⟩, ⟨40, "Poor"⟩, 1⟩ := by
  have hne : ¬(pyStrip textA4.data = []) := by decide
  have hst : argStats textA4 = ⟨0, 1, 1, 1, 4⟩ := by decide
  have hor : sentC1 ⟨textA4.data.take 512⟩ = Except.ok ⟨"POSITIVE", 0⟩ := rfl
  have hup : pyUpper "POSITIVE" = "POSITIVE" := by decide
  simp only [score_argument, if_neg hne, hst, hor, hup]
  norm_num [round1, pyRoundInt, _rating, min_def]

theorem scoreC1_B4 : score_argument sentC1 textB4 =
    ⟨⟨501/10, "Fair"⟩, ⟨100, "Excellent"⟩, ⟨100, "Excellent"⟩, ⟨40, "Poor"⟩, 1⟩ := by
  have hne : ¬(pyStrip textB4.data = []) := by decide
  have hst : argStats textB4 = ⟨0, 1, 1, 1, 4⟩ := by decide
  have hor : sentC1 ⟨textB4.data.take 512⟩ = Except.ok ⟨"POSITIVE", 1/500⟩ := rfl
  have hup : pyUpper "POSITIVE" = "POSITIVE" := by decide
  simp only [score_argument, if_neg hne, hst, hor, hup]
  norm_num [round1, pyRoundInt, _rating, min_def]

theorem compZeroC1 : compare_arguments simZero [textA4] [textB4] = .ok 0 := by
  have hne : ¬(pyStrip (pyJoin [textA4]).data = [] ∨ pyStrip (pyJoin [textB4]).data = []) := by
    decide
  simp only [compare_arguments, if_neg hne, simZero]
  norm_num [round1, pyRoundInt]

/-- The verdict the code produces on `[textA4]` vs `[textB4]` with `sentC1`
and `simZero`. -/
def vC1 : EvalResult :=
  { scores_A :=
      { sentiment := ⟨50, "Fair"⟩, clarity := ⟨100, "Excellent"⟩
        vocab_richness := ⟨100, "Excellent"⟩, avg_word_len := ⟨40, "Poor"⟩ }
    scores_B :=
      { sentiment := ⟨501/10, "Fair"⟩, clarity := ⟨100, "Excellent"⟩
        vocab_richness := ⟨100, "Excellent"⟩, avg_word_len := ⟨40, "Poor"⟩ }
    coherence := ⟨0, "Poor"⟩
    totals_A := 69
    totals_B := 69
    winner := "A" }

theorem evalC1 : evaluate sentC1 simZero [textA4] [textB4] = .ok vC1 := by
  simp only [evaluate, compZeroC1, List.map, scoreC1_A4, scoreC1_B4]
  simp only [total_score, avg_scores, avgOf, avgSub, listMean]
  norm_num [round1, pyRoundInt, _rating, vC1]

theorem totC1 : totals_unrounded sentC1 simZero [textA4] [textB4] = .ok (69, 6903/100) := by
  simp only [totals_unrounded, compZeroC1, Except.map, List.map, scoreC1_A4, scoreC1_B4]
  simp only [total_score, avg_scores, avgOf, listMean]
  norm_num

/-- C1 (counterexample): on sides `["aaaa"]` vs `["bbbb"]` with classifier
`sentC1` and a zero-similarity embedder, the unrounded totals are 69 and
69.03 — B's is strictly greater, and both round to 69.0 — yet the winner the
code reports is "A": rounding is not cosmetic and does change the winner. -/
theorem C1_rounding_flips_winner :
    totals_unrounded sentC1 simZero [textA4] [textB4] = .ok (69, 6903/100) ∧
    (69 : ℚ) < 6903/100 ∧
    (evaluate sentC1 simZero [textA4] [textB4]).map (fun v => v.winner) = .ok "A" := by
  refine ⟨totC1, by norm_num, ?_⟩
  rw [evalC1]
  rfl

/-- C1 (amended): the winner is decided by comparing the totals after
rounding to one decimal place: the reported totals are the rounded unrounded
totals, and `winner` is "A" exactly when the rounded total of A is ≥ the
rounded total of B.  When the unrounded totals differ but round to equal
values, the winner is "A" regardless of which unrounded total is greater. -/
theorem C1_winner_uses_rounded_totals :
    ∀ (sent : SentOracle) (sim : SimOracle) (a b : List String) (v : EvalResult) (tA tB : ℚ),
      evaluate sent sim a b = .ok v → totals_unrounded sent sim a b = .ok (tA, tB) →
      v.totals_A = round1 tA ∧ v.totals_B = round1 tB ∧
      v.winner = (if round1 tA ≥ round1 tB then "A" else "B") := by
  intro sent sim a b v tA tB hv ht
  cases hcomp : compare_arguments sim a b with
  | error e => simp [evaluate, hcomp] at hv
  | ok c =>
    simp only [evaluate, hcomp] at hv
    simp only [totals_unrounded, hcomp, Except.map] at ht
    injection hv with hv
    injection ht with ht
    cases hv
    cases ht
    exact ⟨rfl, rfl, rfl⟩

/-- C1 (witness): the amended winner rule instantiated on the concrete
counterexample debate. -/
theorem C1_witness :
    vC1.totals_A = round1 69 ∧ vC1.totals_B = round1 (6903/100) ∧
    vC1.winner = (if round1 69 ≥ round1 (6903/100) then "A" else "B") :=
  C1_winner_uses_rounded_totals sentC1 simZero [textA4] [textB4] vC1 69 (6903/100) evalC1 totC1

/-- C2 (code bug): `DebateJudge` defines no `finalize_debate` method, so the
`/finalize` endpoint's call `judge.finalize_debate(request.arguments)` raises
`AttributeError` on every request; the handler catches it and the endpoint
always answers `{"error": ...}`, never a Verdict, whether or not the
sentence-embedding model is loaded and whatever the arguments are. -/
theorem C2_finalize_always_errors :
    ∀ (model_loaded : Bool) (clf : EmotionOracle) (sm : PairSimOracle) (args : List PyDict),
      finalize_debate model_loaded clf sm args = .error finalizeAttrError :=
  fun _ _ _ _ => rfl

/-- C3 (counterexample): with an embedder whose cosine similarity is -1/2 the
coherence SubScore of the verdict has value -50, which is negative: the
output percentage is not clamped at 0 and SubScore values are not all in
[0, 100]. -/
theorem C3_negative_coherence :
    (evaluate sentZero simNeg [textX] [textY]).map (fun v => v.coherence.score) =
      .ok (-50) ∧ ((-50 : ℚ) < 0) := by
  have hne : ¬(pyStrip (pyJoin [textX]).data = [] ∨ pyStrip (pyJoin [textY]).data = []) := by
    decide
  have hcomp : compare_arguments simNeg [textX] [textY] = .ok (-50) := by
    simp only [compare_arguments, if_neg hne, simNeg]
    norm_num [round1, pyRoundInt]
  refine ⟨?_, by norm_num⟩
  simp only [evaluate, hcomp, Except.map]

/-- C3 (amended): `compare_arguments` applies no clamp: whenever both joined
documents are non-whitespace and the embedder yields cosine similarity `s`,
the returned coherence is exactly `round(s * 100, 1)` — negative when `s` is
negative — so the coherence SubScore value can lie outside [0, 100]. -/
theorem C3_no_clamp :
    ∀ (sim : SimOracle) (a b : List String) (s : ℚ),
      ¬(pyStrip (pyJoin a).data = [] ∨ pyStrip (pyJoin b).data = []) →
      sim (pyJoin a) (pyJoin b) = .ok s →
      compare_arguments sim a b = .ok (round1 (s * 100)) := by
  intro sim a b s hne hsim
  simp only [compare_arguments, if_neg hne, hsim]

/-- C3 (witness): the no-clamp rule instantiated on the concrete negative
similarity -1/2. -/
theorem C3_witness :
    compare_arguments simNeg [textX] [textY] = .ok (round1 (-(1/2) * 100)) :=
  C3_no_clamp simNeg [textX] [textY] (-(1/2)) (by decide) rfl

/-- C4 (counterexample): when the embedder raises at call time on non-empty
documents, `compare_arguments` does not return 0.0 — the failure propagates
to the caller (ml_judge.py lines 99-110 contain no handler; the exception is
only caught by the endpoint handler in main.py). -/
theorem C4_embedder_error_propagates :
    compare_arguments simBoom [textX] [textY] = .error simBoomMsg ∧
    compare_arguments simBoom [textX] [textY] ≠ .ok 0 := by
  have hne : ¬(pyStrip (pyJoin [textX]).data = [] ∨ pyStrip (pyJoin [textY]).data = []) := by
    decide
  constructor
  · simp only [compare_arguments, if_neg hne, simBoom]
  · simp only [compare_arguments, if_neg hne, simBoom]
    intro h
    cases h

/-- C4 (amended): `compare_arguments` returns 0.0 when either side's
space-joined text is empty or whitespace-only, without invoking the embedder
(the result is the same for every embedder); but when the documents are
non-empty and the embedder raises, the failure propagates instead of
becoming 0.0. -/
theorem C4_empty_short_circuit :
    ∀ (sim sim' : SimOracle) (a b : List String),
      ((pyStrip (pyJoin a).data = [] ∨ pyStrip (pyJoin b).data = []) →
        compare_arguments sim a b = .ok 0 ∧
        compare_arguments sim a b = compare_arguments sim' a b) ∧
      (∀ e, ¬(pyStrip (pyJoin a).data = [] ∨ pyStrip (pyJoin b).data = []) →
        sim (pyJoin a) (pyJoin b) = .error e →
        compare_arguments sim a b = .error e) := by
  intro sim sim' a b
  constructor
  · intro hempty
    constructor
    · simp only [compare_arguments, if_pos hempty]
    · simp only [compare_arguments, if_pos hempty]
  · intro e hne hsim
    simp only [compare_arguments, if_neg hne, hsim]

/-- C4 (witness): the empty-side short circuit instantiated with an embedder
that raises on every call — the result is 0.0 and agrees with any other
embedder. -/
theorem C4_witness :
    compare_arguments simBoom [textWs] [textY] = .ok 0 ∧
    compare_arguments simBoom [textWs] [textY] = compare_arguments simZero [textWs] [textY] :=
  (C4_empty_short_circuit simBoom simZero [textWs] [textY]).1 (by decide)

/-- C5: for every empty or whitespace-only input text, `score_argument`
returns exactly the canonical zero-score set, and the result never consults
the sentiment classifier (it is the same for every classifier). -/
theorem C5_empty_text_zero_scores :
    ∀ (sent sent' : SentOracle) (text : String), pyStrip text.data = [] →
      score_argument sent text =
        ⟨⟨0, "Poor"⟩, ⟨0, "Poor"⟩, ⟨0, "Poor"⟩, ⟨0, "Poor"⟩, 0⟩ ∧
      score_argument sent text = score_argument sent' text := by
  intro sent sent' text h
  constructor
  · rw [score_argument, if_pos h]
    rfl
  · rw [score_argument, if_pos h, score_argument, if_pos h]

/-- C5 (witness): the zero-score contract instantiated on a whitespace-only
text and a classifier that raises if invoked. -/
theorem C5_witness :
    score_argument sentFail textWs =
      ⟨⟨0, "Poor"⟩, ⟨0, "Poor"⟩, ⟨0, "Poor"⟩, ⟨0, "Poor"⟩, 0⟩ ∧
    score_argument sentFail textWs = score_argument sentZero textWs :=
  C5_empty_text_zero_scores sentFail sentZero textWs (by decide)

/-- C6: in every verdict the code produces, `winner = "A"` exactly when the
reported total of A is ≥ the reported total of B (A wins ties); and on two
empty argument lists all averaged metrics and the coherence default to 0,
both totals are 0, a verdict is still produced, and the winner is "A". -/
theorem C6_tie_break_and_degenerate :
    (∀ (sent : SentOracle) (sim : SimOracle) (a b : List String) (v : EvalResult),
      evaluate sent sim a b = .ok v → (v.winner = "A" ↔ v.totals_B ≤ v.totals_A)) ∧
    (∀ (sent : SentOracle) (sim : SimOracle),
      evaluate sent sim [] [] = .ok
        ⟨⟨⟨0, "Poor"⟩, ⟨0, "Poor"⟩, ⟨0, "Poor"⟩, ⟨0, "Poor"⟩⟩,
         ⟨⟨0, "Poor"⟩, ⟨0, "Poor"⟩, ⟨0, "Poor"⟩, ⟨0, "Poor"⟩⟩,
         ⟨0, "Poor"⟩, 0, 0, "A"⟩) := by
  constructor
  · intro sent sim a b v hv
    cases hcomp : compare_arguments sim a b with
    | error e => simp [evaluate, hcomp] at hv
    | ok c =>
      simp only [evaluate, hcomp] at hv
      injection hv with hv
      subst hv
      by_cases h : round1 (total_score (avg_scores (b.map (score_argument sent))) c) ≤
          round1 (total_score (avg_scores (a.map (score_argument sent))) c)
      · simp [ge_iff_le, h]
      · simp [ge_iff_le, h]
  · intro sent sim
    have hcomp : compare_arguments sim [] [] = .ok 0 := by
      have hempty : pyStrip (pyJoin ([] : List String)).data = [] ∨
          pyStrip (pyJoin ([] : List String)).data = [] := by decide
      simp only [compare_arguments, if_pos hempty]
    simp only [evaluate, hcomp, List.map, avg_scores, avgOf, avgSub]
    norm_num [total_score, round1, pyRoundInt, _rating]

/-- C6 (witness): the tie-break characterization instantiated on the concrete
debate `[textA4]` vs `[textB4]`. -/
theorem C6_witness : vC1.winner = "A" ↔ vC1.totals_B ≤ vC1.totals_A :=
  C6_tie_break_and_degenerate.1 sentC1 simZero [textA4] [textB4] vC1 evalC1

/-- C7: the clarity sub-score follows the filler/run-on formula: a single
sentence of 31 one-character words with no fillers scores 60.0 (the 0.6
run-on penalty applied to a base of 1.0), and "um so basically this is it"
(3 filler matches out of 6 words, one short sentence) scores 50.0 — for any
sentiment classifier, since clarity is independent of it. -/
theorem C7_clarity_formula_examples :
    ∀ sent : SentOracle,
      (score_argument sent text31).clarity = ⟨60, "Fair"⟩ ∧
      (score_argument sent textUm).clarity = ⟨50, "Fair"⟩ := by
  intro sent
  constructor
  · have hne : ¬(pyStrip text31.data = []) := by decide
    have hst : argStats text31 = ⟨0, 31, 1, 1, 31⟩ := by decide
    simp only [score_argument, if_neg hne, hst]
    norm_num [round1, pyRoundInt, _rating, min_def]
  · have hne : ¬(pyStrip textUm.data = []) := by decide
    have hst : argStats textUm = ⟨3, 6, 1, 6, 21⟩ := by decide
    simp only [score_argument, if_neg hne, hst]
    norm_num [round1, pyRoundInt, _rating, min_def]

/-- C8: the sentiment step consults the classifier only on the first 512
characters (two classifiers agreeing there give identical results); when the
classifier raises, the sentiment percentage defaults to 50 (raw 0.0) without
propagating; the clarity, vocabulary-richness, word-length and length
outputs never depend on the classifier; and on success the raw score is
signed by the label (`+score` for POSITIVE, `-score` otherwise). -/
theorem C8_sentiment_truncation_soft_fail :
    ∀ (sent sent' : SentOracle) (text e : String) (r : SentOut),
      (sent ⟨text.data.take 512⟩ = sent' ⟨text.data.take 512⟩ →
        score_argument sent text = score_argument sent' text) ∧
      (¬ pyStrip text.data = [] →
        (score_argument (fun _ => .error e) text).sentiment.score = 50) ∧
      ((score_argument sent text).clarity = (score_argument sent' text).clarity ∧
       (score_argument sent text).vocab_richness = (score_argument sent' text).vocab_richness ∧
       (score_argument sent text).avg_word_len = (score_argument sent' text).avg_word_len ∧
       (score_argument sent text).length = (score_argument sent' text).length) ∧
      (¬ pyStrip text.data = [] → sent ⟨text.data.take 512⟩ = .ok r →
        (score_argument sent text).sentiment.score =
          round1 (((if pyUpper r.label = "POSITIVE" then r.score else -r.score) + 1) * 50)) := by
  intro sent sent' text e r
  refine ⟨?_, ?_, ?_, ?_⟩
  · intro h
    simp only [score_argument, h]
  · intro hne
    simp only [score_argument, if_neg hne]
    norm_num [round1, pyRoundInt]
  · refine ⟨?_, ?_, ?_, ?_⟩ <;> (simp only [score_argument]; split <;> rfl)
  · intro hne hok
    simp only [score_argument, if_neg hne, hok]

/-- C8 (witness): the soft-fail default instantiated on the concrete text
"hi" and a classifier that raises. -/
theorem C8_witness : (score_argument (fun _ => .error sentFailMsg) textHi).sentiment.score = 50 :=
  (C8_sentiment_truncation_soft_fail sentZero sentZero textHi sentFailMsg
    ⟨"POSITIVE", 0⟩).2.1 (by decide)

/-- C9: for every non-empty argument list whose dicts all carry a `content`
key, the Debate Dynamics Analyzer reports
`debate_coherence = 1 - average_similarity` exactly, where
`average_similarity` is the arithmetic mean of the adjacent-pair
similarities and is 0 when there are fewer than 2 arguments; in particular a
single-argument debate has `debate_coherence = 1`. -/
theorem C9_debate_coherence :
    ∀ (clf : EmotionOracle) (sm : PairSimOracle) (args : List PyDict) (contents : List String),
      args ≠ [] → args.mapM (fun a => dictGet a contentKey) = .ok contents →
      analyze_debate_dynamics clf sm args = .ok (some (dynamicsPayload clf sm contents)) ∧
      (dynamicsPayload clf sm contents).debate_coherence =
        1 - (dynamicsPayload clf sm contents).average_similarity ∧
      (contents.length < 2 → (dynamicsPayload clf sm contents).average_similarity = 0) ∧
      (contents.length = 1 → (dynamicsPayload clf sm contents).debate_coherence = 1) := by
  intro clf sm args contents hne hmap
  have havg : contents.length < 2 → (dynamicsPayload clf sm contents).average_similarity = 0 := by
    intro hlen
    match contents with
    | [] => simp [dynamicsPayload]
    | [x] => simp [dynamicsPayload]
    | x :: y :: rest =>
      simp only [List.length_cons] at hlen
      omega
  refine ⟨?_, ?_, havg, ?_⟩
  · simp only [analyze_debate_dynamics, if_neg hne, hmap, Except.map]
  · simp only [dynamicsPayload]
  · intro hlen
    have h0 : (dynamicsPayload clf sm contents).average_similarity = 0 := havg (by omega)
    have hco : (dynamicsPayload clf sm contents).debate_coherence =
        1 - (dynamicsPayload clf sm contents).average_similarity := by
      simp only [dynamicsPayload]
    rw [hco, h0]
    norm_num

/-- The single argument dict used by the C9 witness. -/
def dynArg : PyDict := [("content", "hello")]

/-- C9 (witness): the dynamics contract instantiated on a concrete
single-argument debate with unloaded models. -/
theorem C9_witness :
    analyze_debate_dynamics none none [dynArg] =
      .ok (some (dynamicsPayload none none ["hello"])) ∧
    (dynamicsPayload none none ["hello"]).debate_coherence =
      1 - (dynamicsPayload none none ["hello"]).average_similarity ∧
    ((["hello"] : List String).length < 2 →
      (dynamicsPayload none none ["hello"]).average_similarity = 0) ∧
    ((["hello"] : List String).length = 1 →
      (dynamicsPayload none none ["hello"]).debate_coherence = 1) :=
  C9_debate_coherence none none [dynArg] ["hello"] (by decide) rfl

theorem avgOf_cons (x : ScoreSet) (xs : List ScoreSet) (proj : ScoreSet → SubScore) :
    avgOf (x :: xs) proj = listMean ((x :: xs).map (fun s => (proj s).score)) := by
  simp [avgOf]

theorem scoreC10_A4 : score_argument sentC10 textA4 =
    ⟨⟨85, "Excellent"⟩, ⟨100, "Excellent"⟩, ⟨100, "Excellent"⟩, ⟨40, "Poor"⟩, 1⟩ := by
  have hne : ¬(pyStrip textA4.data = []) := by decide
  have hst : argStats textA4 = ⟨0, 1, 1, 1, 4⟩ := by decide
  have hor : sentC10 ⟨textA4.data.take 512⟩ = Except.ok ⟨"POSITIVE", 7/10⟩ := rfl
  have hup : pyUpper "POSITIVE" = "POSITIVE" := by decide
  simp only [score_argument, if_neg hne, hst, hor, hup]
  norm_num [round1, pyRoundInt, _rating, min_def]

theorem scoreC10_B4 : score_argument sentC10 textB4 =
    ⟨⟨85, "Excellent"⟩, ⟨100, "Excellent"⟩, ⟨100, "Excellent"⟩, ⟨40, "Poor"⟩, 1⟩ := by
  have hne : ¬(pyStrip textB4.data = []) := by decide
  have hst : argStats textB4 = ⟨0, 1, 1, 1, 4⟩ := by decide
  have hor : sentC10 ⟨textB4.data.take 512⟩ = Except.ok ⟨"POSITIVE", 7/10⟩ := rfl
  have hup : pyUpper "POSITIVE" = "POSITIVE" := by decide
  simp only [score_argument, if_neg hne, hst, hor, hup]
  norm_num [round1, pyRoundInt, _rating, min_def]

theorem scoreC10_C4 : score_argument sentC10 textC4 =
    ⟨⟨424/5, "Good"⟩, ⟨100, "Excellent"⟩, ⟨100, "Excellent"⟩, ⟨40, "Poor"⟩, 1⟩ := by
  have hne : ¬(pyStrip textC4.data = []) := by decide
  have hst : argStats textC4 = ⟨0, 1, 1, 1, 4⟩ := by decide
  have hor : sentC10 ⟨textC4.data.take 512⟩ = Except.ok ⟨"POSITIVE", 87/125⟩ := rfl
  have hup : pyUpper "POSITIVE" = "POSITIVE" := by decide
  simp only [score_argument, if_neg hne, hst, hor, hup]
  norm_num [round1, pyRoundInt, _rating, min_def]

theorem compZeroC10 :
    compare_arguments simZero [textA4, textA4, textA4, textA4, textC4] [textB4] = .ok 0 := by
  have hne : ¬(pyStrip (pyJoin [textA4, textA4, textA4, textA4, textC4]).data = [] ∨
      pyStrip (pyJoin [textB4]).data = []) := by decide
  simp only [compare_arguments, if_neg hne, simZero]
  norm_num [round1, pyRoundInt]

/-- C10 (counterexample): side A's per-argument sentiment percentages are
85.0, 85.0, 85.0, 85.0, 84.8, whose mean 84.96 rounds to a reported value of
85.0 while the reported rating is computed from the unrounded mean:
`_rating 84.96 = "Good"`.  The reported SubScore is `{85.0, "Good"}`, but the
fixed-threshold bucketing of the reported value 85.0 is "Excellent": the
rating does not equal the bucketing of the reported value. -/
theorem C10_rounded_value_rating_mismatch :
    (evaluate sentC10 simZero [textA4, textA4, textA4, textA4, textC4] [textB4]).map
      (fun v => v.scores_A.sentiment) = .ok ⟨85, "Good"⟩ ∧
    _rating 85 = "Excellent" ∧ ("Good" : String) ≠ "Excellent" := by
  refine ⟨?_, by decide, by decide⟩
  simp only [evaluate, compZeroC10, List.map, scoreC10_A4, scoreC10_B4, scoreC10_C4]
  simp only [avg_scores, avgOf_cons, avgSub, listMean, Except.map]
  norm_num [round1, pyRoundInt, _rating]

/-- C10 (amended): the rating-value invariant holds for the per-argument
SubScores of `score_argument` (their values are rounded before rating) and
for the coherence SubScore of `evaluate`; the averaged metric SubScores of
`evaluate`, however, rate the unrounded mean while reporting the rounded
mean, so there the reported rating matches the bucketing of the unrounded —
not the reported — value, and the two differ when rounding crosses a
threshold. -/
theorem C10_rating_value_consistency :
    (∀ (sent : SentOracle) (text : String),
      (score_argument sent text).sentiment.rating =
        _rating (score_argument sent text).sentiment.score ∧
      (score_argument sent text).clarity.rating =
        _rating (score_argument sent text).clarity.score ∧
      (score_argument sent text).vocab_richness.rating =
        _rating (score_argument sent text).vocab_richness.score ∧
      (score_argument sent text).avg_word_len.rating =
        _rating (score_argument sent text).avg_word_len.score) ∧
    (∀ (sent : SentOracle) (sim : SimOracle) (a b : List String) (v : EvalResult),
      evaluate sent sim a b = .ok v → v.coherence.rating = _rating v.coherence.score) := by
  constructor
  · intro sent text
    refine ⟨?_, ?_, ?_, ?_⟩ <;> (simp only [score_argument]; split) <;> rfl
  · intro sent sim a b v hv
    cases hcomp : compare_arguments sim a b with
    | error e => simp [evaluate, hcomp] at hv
    | ok c =>
      simp only [evaluate, hcomp] at hv
      injection hv with hv
      subst hv
      rfl

/-- C10 (witness): the coherence part of the invariant instantiated on the
concrete verdict `vC1`. -/
theorem C10_witness : vC1.coherence.rating = _rating vC1.coherence.score :=
  C10_rating_value_consistency.2 sentC1 simZero [textA4] [textB4] vC1 evalC1
